import Mathlib

/-!
Verification of the heltec-lora-test synchronized measurement protocol.

The definitions below are a shallow embedding of the repository's C++
sources: the staged-resync hardware timer wrapper (`src/hal/timer.hh`,
second revision, the one that also stages a handler), the radio HAL
error taxonomy and receive-length handling (`src/hal/radio.hh`), and the
sweep state machines of the three sketch revisions
(`src/unnamed/part_000`, `src/unnamed/part_001`,
`src/heltec-lora-test.ino`).  Timestamps are `Int` (the sources use
`int64_t` from `esp_timer_get_time`), periods are `Nat` (`uint64_t`),
and the float-valued bandwidth/frequency/SNR fields are `ℚ`.
Hardware-supplied values (radio outcomes, received bytes, RSSI/SNR,
clock readings, the driver's time-on-air computation) enter as explicit
environment inputs, since they are produced outside the repository.
-/

namespace Timer

/-- Model of the timer wrapper state in `src/hal/timer.hh` (the revision
that stages both a period and a handler).  `period` is the currently
armed periodic timeout of the underlying `esp_timer`, `nextAlarm` the
absolute time of its next tick, `userFn` the handler the notify task
runs (`_timerUserFn`), `nextPeriod` the staged period
(`_timerNextPeriod`, with `0` meaning "nothing staged", as in the
source's `> 0` guard) and `nextUserFn` the staged handler
(`_timerNextUserFn`, `none` modelling the null pointer). -/
structure State (F : Type) where
  running : Bool
  period : Nat
  nextAlarm : Int
  userFn : F
  nextPeriod : Nat
  nextUserFn : Option F
  deriving Repr, DecidableEq

/-- `timerStart(micro, fn)`: arms the periodic timer with period `micro`
starting at time `now` and installs the user handler. -/
def timerStart {F : Type} (micro : Nat) (fn : F) (now : Int) (s : State F) : State F :=
  { s with running := true, period := micro, nextAlarm := now + micro,
           userFn := fn }

/-- `timerResync(micro, fn)`: stages a new period and handler; nothing
else of the timer state is touched. -/
def timerResync {F : Type} (micro : Nat) (fn : F) (s : State F) : State F :=
  { s with nextPeriod := micro, nextUserFn := some fn }

/-- `timerStop()`: halts future ticks. -/
def timerStop {F : Type} (s : State F) : State F :=
  { s with running := false }

/-- `_timerCallback`: runs at the tick time `s.nextAlarm`.  If a period
is staged, `esp_timer_restart` re-arms the timer with it from the tick
instant and the staging cells are cleared (the handler swap happens
under the same `_timerNextPeriod > 0` guard); otherwise the periodic
timer's next alarm is one period later.  Only then is the handler task
notified; the returned `F` is the handler the task will run. -/
def timerCallback {F : Type} (s : State F) : State F × F :=
  let t := s.nextAlarm
  let s' :=
    if s.nextPeriod > 0 then
      let s1 : State F :=
        { s with period := s.nextPeriod, nextAlarm := t + (s.nextPeriod : Int),
                 nextPeriod := 0 }
      match s1.nextUserFn with
      | some fn => { s1 with userFn := fn, nextUserFn := none }
      | none => s1
    else
      { s with nextAlarm := t + (s.period : Int) }
  (s', s'.userFn)

end Timer

namespace Radio

/-- `radio_error_t` from `src/hal/radio.hh`. -/
inductive Error where
  | kNone
  | kCrc
  | kHeader
  | kTimeout
  | kUnknown
  deriving Repr, DecidableEq

/-- The length that `radioRecv` passes to `_radio.readData` (and hence
the number of bytes that may be written into `dest`), as a function of
the caller-declared buffer capacity `*length` and the received packet's
reported length: the source executes
`if (*length < msgLength) *length = msgLength;` before
`readData(dest, *length)`. -/
def radioRecvReadLength (destCapacity msgLength : Nat) : Nat :=
  if destCapacity < msgLength then msgLength else destCapacity

end Radio

/-- `radio_parameters_t` from `src/hal/radio.hh`.  The float fields
(`frequency`, `bandwidth`) are embedded as `ℚ`; `power` is `Int`
(`int8_t` in the source). -/
structure RadioParams where
  power : Int
  frequency : ℚ
  preambleLength : Nat
  bandwidth : ℚ
  sf : Nat
  cr : Nat
  crc : Bool
  invertIq : Bool
  boostedRxGain : Bool
  packetLength : Nat
  syncWord : Nat
  deriving Repr, DecidableEq

/-- Result of one `updateTestParameters` call: the clamped test index
(the source mutates the global `_currentTest` with `%=`), the
`wasInvalidTest` return value, and the updated `_parameters`. -/
structure UpdateResult where
  currentTest : Nat
  wasInvalid : Bool
  params : RadioParams
  deriving Repr, DecidableEq

namespace P000

def powerTable : List Int := [5, 14, 22]

def sfTable : List Nat := [7, 8, 9, 10, 11, 12]

def crTable : List Nat := [5, 8]

def bwTable : List ℚ := [62.5, 125.0, 250.0]

def powerSize : Nat := powerTable.length

def sfSize : Nat := sfTable.length

def crSize : Nat := crTable.length

def bwSize : Nat := bwTable.length

def totalCombinations : Nat := bwSize * crSize * sfSize * powerSize

/-- `updateTestParameters` from `src/unnamed/part_000` (lines 78-117):
clamps `_currentTest` modulo the table-size product, reports whether the
index wrapped, and decodes the index mixed-radix — bandwidth first, then
coding rate, then spreading factor, then power — into `_parameters`,
which additionally gets `syncWord = 0xEA` and `boostedRxGain = false`. -/
def updateTestParameters (currentTest : Nat) (p : RadioParams) : UpdateResult :=
  let wasInvalid0 := currentTest == 0
  let cur := currentTest % totalCombinations
  let wasInvalidTest := !wasInvalid0 && (cur == 0)
  let index0 := cur
  let bandwidth := bwTable.getD (index0 % bwSize) 0
  let index1 := index0 / bwSize
  let cr := crTable.getD (index1 % crSize) 0
  let index2 := index1 / crSize
  let sf := sfTable.getD (index2 % sfSize) 0
  let index3 := index2 / sfSize
  let power := powerTable.getD (index3 % powerSize) 0
  { currentTest := cur, wasInvalid := wasInvalidTest,
    params := { p with bandwidth := bandwidth, cr := cr, sf := sf,
                       power := power, syncWord := 0xEA,
                       boostedRxGain := false } }

/-- The decoded (bandwidth, coding rate, spreading factor, power)
quadruple of an index. -/
def decodeQuad (i : Nat) (p : RadioParams) : ℚ × Nat × Nat × Int :=
  let u := updateTestParameters i p
  (u.params.bandwidth, u.params.cr, u.params.sf, u.params.power)

/-- The initial `_parameters` global of part_000. -/
def initialParameters : RadioParams :=
  { power := 22, frequency := 915.0, preambleLength := 8, bandwidth := 62.5,
    sf := 12, cr := 8, crc := true, invertIq := false, boostedRxGain := true,
    packetLength := 0, syncWord := 0xAE }

/-- The advance operation at a combination boundary in part_000's
`timedLoop` (lines 364-378): `_currentTest++` followed by
`updateTestParameters`'s modulo wrap; yields the new index and the
wrap report. -/
def advance (cur : Nat) (p : RadioParams) : Nat × Bool :=
  let u := updateTestParameters (cur + 1) p
  (u.currentTest, u.wasInvalid)

/-- Iterates `advance` `n` times from index `cur`, counting how many of
the advances reported a wrap. -/
def advanceIter (p : RadioParams) : Nat → Nat → Nat × Nat
  | cur, 0 => (cur, 0)
  | cur, n + 1 =>
    let c := advance cur p
    let r := advanceIter p c.1 n
    (r.1, r.2 + (if c.2 then 1 else 0))

/-- Pure-arithmetic form of `advanceIter`, used to settle the iteration
count by evaluation. -/
def advanceIterNat : Nat → Nat → Nat × Nat
  | cur, 0 => (cur, 0)
  | cur, n + 1 =>
    let c := (cur + 1) % totalCombinations
    let r := advanceIterNat c n
    (r.1, r.2 + (if c == 0 then 1 else 0))

end P000

namespace P001

def powerTable : List Int := [5, 10, 17, 22]

def sfTable : List Nat := [7, 8, 9, 10, 11, 12]

def crTable : List Nat := [5, 8]

def bwTable : List ℚ := [62.5, 125.0, 250.0]

def powerSize : Nat := powerTable.length

def sfSize : Nat := sfTable.length

def crSize : Nat := crTable.length

def bwSize : Nat := bwTable.length

def totalCombinations : Nat := bwSize * crSize * sfSize * powerSize

/-- `updateTestParameters` from `src/unnamed/part_001` (lines 80-119);
identical to part_000's except for the four-entry power table. -/
def updateTestParameters (currentTest : Nat) (p : RadioParams) : UpdateResult :=
  let wasInvalid0 := currentTest == 0
  let cur := currentTest % totalCombinations
  let wasInvalidTest := !wasInvalid0 && (cur == 0)
  let index0 := cur
  let bandwidth := bwTable.getD (index0 % bwSize) 0
  let index1 := index0 / bwSize
  let cr := crTable.getD (index1 % crSize) 0
  let index2 := index1 / crSize
  let sf := sfTable.getD (index2 % sfSize) 0
  let index3 := index2 / sfSize
  let power := powerTable.getD (index3 % powerSize) 0
  { currentTest := cur, wasInvalid := wasInvalidTest,
    params := { p with bandwidth := bandwidth, cr := cr, sf := sf,
                       power := power, syncWord := 0xEA,
                       boostedRxGain := false } }

/-- The decoded (bandwidth, coding rate, spreading factor, power)
quadruple of an index. -/
def decodeQuad (i : Nat) (p : RadioParams) : ℚ × Nat × Nat × Int :=
  let u := updateTestParameters i p
  (u.params.bandwidth, u.params.cr, u.params.sf, u.params.power)

/-- The initial `_parameters` global of part_001. -/
def initialParameters : RadioParams :=
  { power := 22, frequency := 915.0, preambleLength := 8, bandwidth := 62.5,
    sf := 12, cr := 8, crc := true, invertIq := false, boostedRxGain := true,
    packetLength := 0, syncWord := 0xAE }

end P001

namespace Ino

def powerTable : List Int := [5, 14, 23]

def sfTable : List Nat := [7, 8, 9, 10, 11, 12]

def crTable : List Nat := [5, 8]

def bwTable : List ℚ := [62.5, 125.0, 250.0]

def powerSize : Nat := powerTable.length

def sfSize : Nat := sfTable.length

def crSize : Nat := crTable.length

def bwSize : Nat := bwTable.length

def totalCombinations : Nat := bwSize * crSize * sfSize * powerSize

/-- `updateTestParameters` from `src/heltec-lora-test.ino` (lines
72-111); identical to part_000's except for the power table's last
entry (23). -/
def updateTestParameters (currentTest : Nat) (p : RadioParams) : UpdateResult :=
  let wasInvalid0 := currentTest == 0
  let cur := currentTest % totalCombinations
  let wasInvalidTest := !wasInvalid0 && (cur == 0)
  let index0 := cur
  let bandwidth := bwTable.getD (index0 % bwSize) 0
  let index1 := index0 / bwSize
  let cr := crTable.getD (index1 % crSize) 0
  let index2 := index1 / crSize
  let sf := sfTable.getD (index2 % sfSize) 0
  let index3 := index2 / sfSize
  let power := powerTable.getD (index3 % powerSize) 0
  { currentTest := cur, wasInvalid := wasInvalidTest,
    params := { p with bandwidth := bandwidth, cr := cr, sf := sf,
                       power := power, syncWord := 0xEA,
                       boostedRxGain := false } }

/-- The decoded (bandwidth, coding rate, spreading factor, power)
quadruple of an index. -/
def decodeQuad (i : Nat) (p : RadioParams) : ℚ × Nat × Nat × Int :=
  let u := updateTestParameters i p
  (u.params.bandwidth, u.params.cr, u.params.sf, u.params.power)

/-- The initial `_parameters` global of heltec-lora-test.ino. -/
def initialParameters : RadioParams :=
  { power := 23, frequency := 915.0, preambleLength := 8, bandwidth := 62.5,
    sf := 12, cr := 8, crc := true, invertIq := false, boostedRxGain := true,
    packetLength := 0, syncWord := 0xAE }

end Ino

namespace P001

/-- Timing constants of part_001 (`#define`s, microseconds). -/
def RX_TIMING_ERROR : Nat := 55000

def TX_DELAY : Nat := RX_TIMING_ERROR + 8000

def BUDGET : Nat := TX_DELAY + 80000

def SD_BUDGET : Nat := 2000000

def MESSAGES_PER_TEST : Nat := 50

/-- `sizeof("XMensagem")`: nine characters plus the terminator. -/
def messageLength : Nat := 10

/-- The two handlers part_001 installs on the timer. -/
inductive HandlerFn where
  | timedLoop
  | sdLoop
  deriving Repr, DecidableEq

/-- `protocol_state_t` from part_001. -/
inductive ProtocolState where
  | kUninitialized
  | kRunning
  | kFinished
  | kPing
  deriving Repr, DecidableEq

/-- `role_t`. -/
inductive Role where
  | kUnspecified
  | kTx
  | kRx
  deriving Repr, DecidableEq

/-- `msg_result_t` from part_001. -/
structure MsgResult where
  startTime : Int
  loraEndTime : Int
  endTime : Int
  period : Int
  nextAlarm : Int
  message : List Nat
  length : Nat
  rssi : Int
  snr : ℚ
  error : Radio.Error
  deriving Repr, DecidableEq

/-- An all-zero `msg_result_t` (what `memset(_results, 0, ...)` leaves). -/
def MsgResult.zero : MsgResult :=
  { startTime := 0, loraEndTime := 0, endTime := 0, period := 0, nextAlarm := 0,
    message := List.replicate messageLength 0, length := 0, rssi := 0, snr := 0,
    error := Radio.Error.kNone }

/-- The global mutable state of part_001 that the protocol logic
touches: role, protocol state, test and message counters, outcome
counters, the `_parameters` global, the last parameters pushed to the
radio (`radioSetParameters`), the `_results` buffer, the timer, SD/log
status, and the timing globals used by the progress bar and the desync
latch. -/
structure SysState where
  role : Role
  protoState : ProtocolState
  currentTest : Nat
  messageIndex : Nat
  testsOk : Nat
  testsCorrupt : Nat
  testsLost : Nat
  parameters : RadioParams
  radioConfig : RadioParams
  results : List MsgResult
  timer : Timer.State HandlerFn
  hasSD : Bool
  logClosed : Bool
  begin : Int
  nextAlarm : Int
  currentPeriod : Nat
  operationBegin : Int
  operationEnd : Int
  timedEnd : Int
  timerLatch : Bool
  deriving Repr, DecidableEq

/-- Hardware/environment inputs consumed during one slot handler run:
the monotonic clock readings at the `timerTime()` call sites, the radio
operation's outcome for either role, the bytes and length a successful
receive leaves in the destination buffer, and the RSSI/SNR readings. -/
structure SlotEnv where
  opBegin : Int
  opEnd : Int
  tEnd : Int
  recvError : Radio.Error
  sendError : Radio.Error
  recvMessage : List Nat
  recvLength : Nat
  rssi : Int
  snr : ℚ
  deriving Repr, DecidableEq

/-- The `error` variable of `timedLoop` after the role branch. -/
def slotError (role : Role) (e : SlotEnv) : Radio.Error :=
  match role with
  | Role.kRx => e.recvError
  | Role.kTx => e.sendError
  | Role.kUnspecified => Radio.Error.kNone

/-- The `switch (error)` at the end of `timedLoop` (lines 366-384):
bumps exactly the counter matching the outcome's bucket, yielding the
new (ok, corrupt, lost) triple. -/
def classifyCounters (ok corrupt lost : Nat) (error : Radio.Error) :
    Nat × Nat × Nat :=
  match error with
  | Radio.Error.kNone => (ok + 1, corrupt, lost)
  | Radio.Error.kTimeout => (ok, corrupt, lost + 1)
  | Radio.Error.kHeader => (ok, corrupt + 1, lost)
  | Radio.Error.kCrc => (ok, corrupt + 1, lost)
  | Radio.Error.kUnknown => (ok, corrupt, lost + 1)

/-- One data line of the persistence log: the fields of the per-message
`logPrintf` in `sdLoop` (receiver form; the sender form omits
RSSI/SNR/payload but carries the same message-index field). -/
structure LogRecord where
  startTime : Int
  loraEndTime : Int
  endTime : Int
  period : Int
  nextAlarm : Int
  paramIndex : Nat
  msgIndex : Nat
  power : Int
  sf : Nat
  cr : Nat
  bandwidth : ℚ
  rssi : Int
  snr : ℚ
  error : Radio.Error
  payload : List Nat
  deriving Repr, DecidableEq

/-- Observable persistence activity of one handler invocation. -/
structure StepOut where
  records : List LogRecord
  flushes : Nat
  headerEmitted : Bool
  deriving Repr, DecidableEq

/-- `timedLoop` from part_001 (lines 324-405) as a state transformer
over one slot.  The radio operation itself (send or bounded-timeout
receive) is environment-supplied; `toa` stands for the driver's
`radioTransmitTime`.  It emits no persistence records and no flush. -/
def timedLoop (toa : RadioParams → Nat → Nat) (s : SysState) (e : SlotEnv) :
    SysState × StepOut :=
  let _ := toa s.parameters messageLength
  let s := { s with nextAlarm := s.timer.nextAlarm,
                    currentPeriod := s.timer.period }
  let error := slotError s.role e
  let result : MsgResult :=
    { startTime := e.opBegin, loraEndTime := e.opEnd, endTime := e.tEnd,
      period := (s.currentPeriod : Int), nextAlarm := s.nextAlarm,
      message := (match s.role with
                  | Role.kRx => e.recvMessage
                  | _ => (s.results.getD s.messageIndex MsgResult.zero).message),
      length := (match s.role with
                 | Role.kRx => e.recvLength
                 | _ => messageLength),
      rssi := e.rssi, snr := e.snr, error := error }
  let s := { s with operationBegin := e.opBegin, operationEnd := e.opEnd,
                    results := s.results.set s.messageIndex result }
  let cnt := classifyCounters s.testsOk s.testsCorrupt s.testsLost error
  let s := { s with testsOk := cnt.1, testsCorrupt := cnt.2.1,
                    testsLost := cnt.2.2 }
  let s := { s with messageIndex := s.messageIndex + 1 }
  let s := { s with timer := if s.messageIndex = MESSAGES_PER_TEST then
      Timer.timerResync SD_BUDGET HandlerFn.sdLoop s.timer else s.timer }
  let s := { s with timedEnd := e.tEnd,
                    timerLatch := s.timerLatch
                      || decide ((s.currentPeriod : Int) < e.tEnd - e.opBegin) }
  (s, { records := [], flushes := 0, headerEmitted := false })

/-- The record the `for` loop in `sdLoop` emits for buffer slot `i`. -/
def mkRecord (s : SysState) (r : MsgResult) (i : Nat) : LogRecord :=
  { startTime := r.startTime, loraEndTime := r.loraEndTime,
    endTime := r.endTime, period := r.period, nextAlarm := r.nextAlarm,
    paramIndex := s.currentTest, msgIndex := i, power := s.parameters.power,
    sf := s.parameters.sf, cr := s.parameters.cr,
    bandwidth := s.parameters.bandwidth, rssi := r.rssi, snr := r.snr,
    error := r.error, payload := r.message.take r.length }

/-- `sdLoop` from part_001 (lines 408-487): emits the label header on
the first combination, writes the 50 buffered results (indexed by the
loop variable) to persistence, flushes once, clears the buffer, resets
the message counter, advances the test index, decodes and pushes the
new parameters, and stages the next combination's period — or, when
the index wrapped, transitions to `kFinished`, closes the log and stops
the timer. -/
def sdLoop (toa : RadioParams → Nat → Nat) (s : SysState) (e : SlotEnv) :
    SysState × StepOut :=
  let s := { s with nextAlarm := s.timer.nextAlarm,
                    currentPeriod := s.timer.period,
                    operationBegin := e.opBegin }
  let headerEmitted := s.currentTest == 0
  let records := (List.range MESSAGES_PER_TEST).map
    (fun i => mkRecord s (s.results.getD i MsgResult.zero) i)
  let s := { s with results := List.replicate MESSAGES_PER_TEST MsgResult.zero }
  let s := { s with messageIndex := 0, currentTest := s.currentTest + 1 }
  let u := updateTestParameters s.currentTest s.parameters
  let finished := u.wasInvalid
  let s := { s with currentTest := u.currentTest, parameters := u.params,
                    radioConfig := u.params,
                    protoState := if finished then ProtocolState.kFinished
                                  else ProtocolState.kRunning }
  let s := { s with timer := Timer.timerResync
                      (toa u.params messageLength + BUDGET)
                      HandlerFn.timedLoop s.timer }
  -- `_protoState == kFinished` holds exactly when the advance wrapped
  let s := { s with logClosed := if finished then true else s.logClosed,
                    timer := if finished then Timer.timerStop s.timer
                             else s.timer }
  let s := { s with operationEnd := e.tEnd, timedEnd := e.tEnd,
                    timerLatch := s.timerLatch
                      || decide ((s.currentPeriod : Int) < e.tEnd - e.opBegin) }
  (s, { records := records, flushes := 1, headerEmitted := headerEmitted })

/-- Environment inputs of one `syncLoop` attempt: outcome of the radio
operation for either role, the byte a successful receive leaves in the
one-byte buffer, the SD initialization result, and the clock reading. -/
structure SyncEnv where
  recvError : Radio.Error
  recvByte : Nat
  sendError : Radio.Error
  hasSD : Bool
  now : Int
  deriving Repr, DecidableEq

/-- Externally visible effect of a `syncLoop` attempt: the backoff
`delay(1000)` issued on failure (0 on the success path). -/
structure SyncOut where
  delayMs : Nat
  deriving Repr, DecidableEq

/-- The `error` variable of `syncLoop` after the role branch. -/
def syncError (role : Role) (e : SyncEnv) : Radio.Error :=
  match role with
  | Role.kRx => e.recvError
  | Role.kTx => e.sendError
  | Role.kUnspecified => Radio.Error.kNone

/-- `syncLoop` from part_001 (lines 238-288): one handshake attempt.
On any non-`kNone` outcome it prints, delays one second and returns —
before any protocol state is touched.  On success it adopts the
exchanged index (`_currentTest = message[0]`, the receiver's buffer
holding the received byte, the sender's its own index narrowed to
`uint8_t`), decodes it, and starts the synchronized timer, the sender
delaying its first period by `TX_DELAY`. -/
def syncLoop (toa : RadioParams → Nat → Nat) (s : SysState) (e : SyncEnv) :
    SysState × SyncOut :=
  let s := { s with hasSD := e.hasSD }
  let s := { s with radioConfig := s.parameters }
  let message0 := s.currentTest % 256
  let error := syncError s.role e
  if error ≠ Radio.Error.kNone then
    (s, { delayMs := 1000 })
  else
    let message0 := match s.role with
      | Role.kRx => e.recvByte % 256
      | _ => message0
    let s := { s with currentTest := message0 }
    let u := updateTestParameters s.currentTest s.parameters
    let s := { s with currentTest := u.currentTest, parameters := u.params,
                      radioConfig := u.params }
    let totalBudget := toa u.params messageLength + BUDGET
    let startPeriod := totalBudget + (if s.role = Role.kTx then TX_DELAY else 0)
    let t1 := Timer.timerStart startPeriod HandlerFn.timedLoop e.now s.timer
    let s := { s with timer := t1 }
    let t2 := Timer.timerResync totalBudget HandlerFn.timedLoop s.timer
    let s := { s with timer := t2 }
    let s := { s with begin := e.now, protoState := ProtocolState.kRunning }
    (s, { delayMs := 0 })

/-- One timer tick: `_timerCallback` applies any staged resync, then
the notified handler task runs the installed handler. -/
def tick (toa : RadioParams → Nat → Nat) (s : SysState) (e : SlotEnv) :
    SysState × StepOut :=
  let c := Timer.timerCallback s.timer
  let s := { s with timer := c.1 }
  match c.2 with
  | HandlerFn.timedLoop => timedLoop toa s e
  | HandlerFn.sdLoop => sdLoop toa s e

/-- A run of the scheduler: folds `tick` over a list of slot
environments. -/
def run (toa : RadioParams → Nat → Nat) (s : SysState) : List SlotEnv → SysState
  | [] => s
  | e :: es => run toa (tick toa s e).1 es

/-- A constant stand-in for the driver's time-on-air function, used to
evaluate the machine at concrete inputs. -/
def toaConst : RadioParams → Nat → Nat := fun _ _ => 250000

/-- The sketch's initial global state, with the receiver role selected
at the menu. -/
def initialState : SysState :=
  { role := Role.kRx, protoState := ProtocolState.kUninitialized,
    currentTest := 0, messageIndex := 0, testsOk := 0, testsCorrupt := 0,
    testsLost := 0, parameters := initialParameters,
    radioConfig := initialParameters,
    results := List.replicate MESSAGES_PER_TEST MsgResult.zero,
    timer := { running := false, period := 0, nextAlarm := 0,
               userFn := HandlerFn.timedLoop, nextPeriod := 0,
               nextUserFn := none },
    hasSD := false, logClosed := false, begin := 0, nextAlarm := 0,
    currentPeriod := 1, operationBegin := 0, operationEnd := 0, timedEnd := 0,
    timerLatch := false }

/-- A sample slot environment: a successful receive taking 40 ms. -/
def sampleEnv : SlotEnv :=
  { opBegin := 1000000, opEnd := 1040000, tEnd := 1041000,
    recvError := Radio.Error.kNone, sendError := Radio.Error.kNone,
    recvMessage := [0, 77, 101, 110, 115, 97, 103, 101, 109, 0],
    recvLength := 10, rssi := -80, snr := 5, }

/-- A sample handshake environment: a successful receive of index 3. -/
def sampleSyncEnv : SyncEnv :=
  { recvError := Radio.Error.kNone, recvByte := 3,
    sendError := Radio.Error.kNone, hasSD := true, now := 500000 }

/-- A failing handshake environment: the receive timed out. -/
def failSyncEnv : SyncEnv :=
  { recvError := Radio.Error.kTimeout, recvByte := 0,
    sendError := Radio.Error.kTimeout, hasSD := true, now := 500000 }

/-- A running state mid-combination with 49 messages already recorded. -/
def stateAt49 : SysState :=
  { initialState with protoState := ProtocolState.kRunning,
                      messageIndex := 49 }

/-- A running state at the last combination index (143), about to
wrap. -/
def stateAtLast : SysState :=
  { initialState with protoState := ProtocolState.kRunning,
                      currentTest := 143 }

/-- A sender-role initial state. -/
def senderState : SysState :=
  { initialState with role := Role.kTx }

end P001

/-- A concrete timer state used to instantiate the timer theorems. -/
def sampleTimerState : Timer.State Nat :=
  { running := true, period := 1500, nextAlarm := 9000, userFn := 0,
    nextPeriod := 0, nextUserFn := none }

/-! ### Lemmas and theorems -/

namespace P000

theorem advance_fst (p : RadioParams) (c : Nat) :
    (advance c p).1 = (c + 1) % totalCombinations := rfl

theorem advance_snd (p : RadioParams) (c : Nat) :
    (advance c p).2 = ((c + 1) % totalCombinations == 0) := by
  have h : ((c + 1) == 0) = false := by simp
  simp [advance, updateTestParameters, h]

theorem advanceIter_eq_nat (p : RadioParams) (n : Nat) : ∀ c : Nat,
    advanceIter p c n = advanceIterNat c n := by
  induction n with
  | zero => intro c; rfl
  | succ n ih =>
    intro c
    simp [advanceIter, advanceIterNat, advance_fst, advance_snd, ih]

set_option maxRecDepth 8000 in
theorem advanceIterNat_cycle :
    ∀ s : Fin 108, advanceIterNat s.val 108 = (s.val, 1) := by decide

end P000

/-- C4: the advance operation at a combination boundary (increment of
the test index followed by `updateTestParameters`' modulo/wrap check in
part_000) is a pure increment modulo `totalCombinations`, and from any
starting index in range, exactly `totalCombinations` consecutive
advances return the index to its start with the wrap flag reported true
on exactly one of them. -/
theorem advance_is_mod_increment_and_cycles :
    (∀ (p : RadioParams) (c : Nat),
        (P000.advance c p).1 = (c + 1) % P000.totalCombinations)
    ∧ (∀ (p : RadioParams) (s : Fin P000.totalCombinations),
        P000.advanceIter p s.val P000.totalCombinations = (s.val, 1)) := by
  refine ⟨fun p c => P000.advance_fst p c, fun p s => ?_⟩
  rw [P000.advanceIter_eq_nat]
  exact P000.advanceIterNat_cycle s

/-- C9: part_000's tables are power {5,14,22}, sf {7..12}, cr {5,8},
bw {62.5,125,250}; `totalCombinations` is 3·6·2·3 = 108; index 0
decodes to the first entry of every table, index 107 to the last entry
of every table, and index 108 wraps back to the decoding of index 0. -/
theorem parameter_tables_scenario :
    P000.powerTable = [5, 14, 22] ∧ P000.sfTable = [7, 8, 9, 10, 11, 12]
    ∧ P000.crTable = [5, 8] ∧ P000.bwTable = [62.5, 125.0, 250.0]
    ∧ P000.totalCombinations = 3 * 6 * 2 * 3
    ∧ P000.decodeQuad 0 P000.initialParameters = (62.5, 5, 7, 5)
    ∧ P000.decodeQuad 107 P000.initialParameters = (250.0, 8, 12, 22)
    ∧ P000.decodeQuad 108 P000.initialParameters
        = P000.decodeQuad 0 P000.initialParameters
    ∧ (P000.updateTestParameters 108 P000.initialParameters).currentTest = 0
    ∧ (P000.updateTestParameters 108 P000.initialParameters).wasInvalid = true := by
  refine ⟨rfl, rfl, rfl, rfl, rfl, rfl, rfl, rfl, rfl, rfl⟩

namespace P001

theorem bw_getD_inj {a b : Nat} (ha : a < bwSize) (hb : b < bwSize)
    (h : bwTable.getD a 0 = bwTable.getD b 0) : a = b := by
  have ha' : a < 3 := ha
  have hb' : b < 3 := hb
  interval_cases a <;> interval_cases b <;>
    simp only [bwTable, List.getD_cons_zero, List.getD_cons_succ] at h ⊢ <;>
    first
      | rfl
      | exact absurd h (by norm_num)

theorem cr_getD_inj {a b : Nat} (ha : a < crSize) (hb : b < crSize)
    (h : crTable.getD a 0 = crTable.getD b 0) : a = b := by
  have key : ∀ x y : Fin crSize,
      crTable.getD x.val 0 = crTable.getD y.val 0 → x = y := by decide
  exact congrArg Fin.val (key ⟨a, ha⟩ ⟨b, hb⟩ h)

theorem sf_getD_inj {a b : Nat} (ha : a < sfSize) (hb : b < sfSize)
    (h : sfTable.getD a 0 = sfTable.getD b 0) : a = b := by
  have key : ∀ x y : Fin sfSize,
      sfTable.getD x.val 0 = sfTable.getD y.val 0 → x = y := by decide
  exact congrArg Fin.val (key ⟨a, ha⟩ ⟨b, hb⟩ h)

theorem power_getD_inj {a b : Nat} (ha : a < powerSize) (hb : b < powerSize)
    (h : powerTable.getD a 0 = powerTable.getD b 0) : a = b := by
  have key : ∀ x y : Fin powerSize,
      powerTable.getD x.val 0 = powerTable.getD y.val 0 → x = y := by decide
  exact congrArg Fin.val (key ⟨a, ha⟩ ⟨b, hb⟩ h)

theorem decodeQuad_digits (p : RadioParams) (i : Nat) :
    decodeQuad i p =
      (bwTable.getD (i % totalCombinations % bwSize) 0,
       crTable.getD (i % totalCombinations / bwSize % crSize) 0,
       sfTable.getD (i % totalCombinations / bwSize / crSize % sfSize) 0,
       powerTable.getD
         (i % totalCombinations / bwSize / crSize / sfSize % powerSize) 0) := rfl

theorem bw_getD_mem {k : Nat} (hk : k < bwSize) : bwTable.getD k 0 ∈ bwTable := by
  have hk' : k < 3 := hk
  interval_cases k <;> simp [bwTable]

theorem cr_getD_mem {k : Nat} (hk : k < crSize) : crTable.getD k 0 ∈ crTable := by
  have key : ∀ x : Fin crSize, crTable.getD x.val 0 ∈ crTable := by decide
  exact key ⟨k, hk⟩

theorem sf_getD_mem {k : Nat} (hk : k < sfSize) : sfTable.getD k 0 ∈ sfTable := by
  have key : ∀ x : Fin sfSize, sfTable.getD x.val 0 ∈ sfTable := by decide
  exact key ⟨k, hk⟩

theorem power_getD_mem {k : Nat} (hk : k < powerSize) :
    powerTable.getD k 0 ∈ powerTable := by
  have key : ∀ x : Fin powerSize, powerTable.getD x.val 0 ∈ powerTable := by decide
  exact key ⟨k, hk⟩

theorem decodeQuad_inj (p : RadioParams) {i j : Nat}
    (hi : i < totalCombinations) (hj : j < totalCombinations)
    (h : decodeQuad i p = decodeQuad j p) : i = j := by
  rw [decodeQuad_digits, decodeQuad_digits, Nat.mod_eq_of_lt hi,
      Nat.mod_eq_of_lt hj] at h
  simp only [Prod.mk.injEq] at h
  obtain ⟨h1, h2, h3, h4⟩ := h
  have e1 : i % 3 = j % 3 :=
    bw_getD_inj (Nat.mod_lt _ (by decide)) (Nat.mod_lt _ (by decide)) h1
  have e2 : i / 3 % 2 = j / 3 % 2 :=
    cr_getD_inj (Nat.mod_lt _ (by decide)) (Nat.mod_lt _ (by decide)) h2
  have e3 : i / 3 / 2 % 6 = j / 3 / 2 % 6 :=
    sf_getD_inj (Nat.mod_lt _ (by decide)) (Nat.mod_lt _ (by decide)) h3
  have e4 : i / 3 / 2 / 6 % 4 = j / 3 / 2 / 6 % 4 :=
    power_getD_inj (Nat.mod_lt _ (by decide)) (Nat.mod_lt _ (by decide)) h4
  have hi' : i < 144 := hi
  have hj' : j < 144 := hj
  omega

end P001

namespace Ino

theorem bw_getD_inj_ino {a b : Nat} (ha : a < bwSize) (hb : b < bwSize)
    (h : bwTable.getD a 0 = bwTable.getD b 0) : a = b := by
  have ha' : a < 3 := ha
  have hb' : b < 3 := hb
  interval_cases a <;> interval_cases b <;>
    simp only [bwTable, List.getD_cons_zero, List.getD_cons_succ] at h ⊢ <;>
    first
      | rfl
      | exact absurd h (by norm_num)

theorem cr_getD_inj_ino {a b : Nat} (ha : a < crSize) (hb : b < crSize)
    (h : crTable.getD a 0 = crTable.getD b 0) : a = b := by
  have key : ∀ x y : Fin crSize,
      crTable.getD x.val 0 = crTable.getD y.val 0 → x = y := by decide
  exact congrArg Fin.val (key ⟨a, ha⟩ ⟨b, hb⟩ h)

theorem sf_getD_inj_ino {a b : Nat} (ha : a < sfSize) (hb : b < sfSize)
    (h : sfTable.getD a 0 = sfTable.getD b 0) : a = b := by
  have key : ∀ x y : Fin sfSize,
      sfTable.getD x.val 0 = sfTable.getD y.val 0 → x = y := by decide
  exact congrArg Fin.val (key ⟨a, ha⟩ ⟨b, hb⟩ h)

theorem power_getD_inj_ino {a b : Nat} (ha : a < powerSize) (hb : b < powerSize)
    (h : powerTable.getD a 0 = powerTable.getD b 0) : a = b := by
  have key : ∀ x y : Fin powerSize,
      powerTable.getD x.val 0 = powerTable.getD y.val 0 → x = y := by decide
  exact congrArg Fin.val (key ⟨a, ha⟩ ⟨b, hb⟩ h)

theorem decodeQuad_digits_ino (p : RadioParams) (i : Nat) :
    decodeQuad i p =
      (bwTable.getD (i % totalCombinations % bwSize) 0,
       crTable.getD (i % totalCombinations / bwSize % crSize) 0,
       sfTable.getD (i % totalCombinations / bwSize / crSize % sfSize) 0,
       powerTable.getD
         (i % totalCombinations / bwSize / crSize / sfSize % powerSize) 0) := rfl

theorem bw_getD_mem_ino {k : Nat} (hk : k < bwSize) : bwTable.getD k 0 ∈ bwTable := by
  have hk' : k < 3 := hk
  interval_cases k <;> simp [bwTable]

theorem cr_getD_mem_ino {k : Nat} (hk : k < crSize) : crTable.getD k 0 ∈ crTable := by
  have key : ∀ x : Fin crSize, crTable.getD x.val 0 ∈ crTable := by decide
  exact key ⟨k, hk⟩

theorem sf_getD_mem_ino {k : Nat} (hk : k < sfSize) : sfTable.getD k 0 ∈ sfTable := by
  have key : ∀ x : Fin sfSize, sfTable.getD x.val 0 ∈ sfTable := by decide
  exact key ⟨k, hk⟩

theorem power_getD_mem_ino {k : Nat} (hk : k < powerSize) :
    powerTable.getD k 0 ∈ powerTable := by
  have key : ∀ x : Fin powerSize, powerTable.getD x.val 0 ∈ powerTable := by decide
  exact key ⟨k, hk⟩

theorem decodeQuad_inj_ino (p : RadioParams) {i j : Nat}
    (hi : i < totalCombinations) (hj : j < totalCombinations)
    (h : decodeQuad i p = decodeQuad j p) : i = j := by
  rw [decodeQuad_digits_ino, decodeQuad_digits_ino, Nat.mod_eq_of_lt hi,
      Nat.mod_eq_of_lt hj] at h
  simp only [Prod.mk.injEq] at h
  obtain ⟨h1, h2, h3, h4⟩ := h
  have e1 : i % 3 = j % 3 :=
    bw_getD_inj_ino (Nat.mod_lt _ (by decide)) (Nat.mod_lt _ (by decide)) h1
  have e2 : i / 3 % 2 = j / 3 % 2 :=
    cr_getD_inj_ino (Nat.mod_lt _ (by decide)) (Nat.mod_lt _ (by decide)) h2
  have e3 : i / 3 / 2 % 6 = j / 3 / 2 % 6 :=
    sf_getD_inj_ino (Nat.mod_lt _ (by decide)) (Nat.mod_lt _ (by decide)) h3
  have e4 : i / 3 / 2 / 6 % 3 = j / 3 / 2 / 6 % 3 :=
    power_getD_inj_ino (Nat.mod_lt _ (by decide)) (Nat.mod_lt _ (by decide)) h4
  have hi' : i < 108 := hi
  have hj' : j < 108 := hj
  omega

end Ino

/-- C3: for every in-range index, `updateTestParameters` decodes the
index mixed-radix — bandwidth digit first (radix 3), then coding rate
(radix 2), then spreading factor (radix 6), then power — with every
component drawn from its fixed ordered table, and the decoded quadruple
is injective on `[0, totalCombinations)`.  Stated for both cited
revisions: part_001 (four-entry power table) and heltec-lora-test.ino
(three-entry power table). -/
theorem decode_draws_from_tables_and_injective :
    (∀ (p : RadioParams) (i : Nat), i < P001.totalCombinations →
        P001.decodeQuad i p =
          (P001.bwTable.getD (i % P001.bwSize) 0,
           P001.crTable.getD (i / P001.bwSize % P001.crSize) 0,
           P001.sfTable.getD (i / P001.bwSize / P001.crSize % P001.sfSize) 0,
           P001.powerTable.getD
             (i / P001.bwSize / P001.crSize / P001.sfSize % P001.powerSize) 0)
        ∧ (P001.decodeQuad i p).1 ∈ P001.bwTable
        ∧ (P001.decodeQuad i p).2.1 ∈ P001.crTable
        ∧ (P001.decodeQuad i p).2.2.1 ∈ P001.sfTable
        ∧ (P001.decodeQuad i p).2.2.2 ∈ P001.powerTable)
    ∧ (∀ (p : RadioParams) (i j : Nat), i < P001.totalCombinations →
        j < P001.totalCombinations →
        P001.decodeQuad i p = P001.decodeQuad j p → i = j)
    ∧ (∀ (p : RadioParams) (i : Nat), i < Ino.totalCombinations →
        Ino.decodeQuad i p =
          (Ino.bwTable.getD (i % Ino.bwSize) 0,
           Ino.crTable.getD (i / Ino.bwSize % Ino.crSize) 0,
           Ino.sfTable.getD (i / Ino.bwSize / Ino.crSize % Ino.sfSize) 0,
           Ino.powerTable.getD
             (i / Ino.bwSize / Ino.crSize / Ino.sfSize % Ino.powerSize) 0)
        ∧ (Ino.decodeQuad i p).1 ∈ Ino.bwTable
        ∧ (Ino.decodeQuad i p).2.1 ∈ Ino.crTable
        ∧ (Ino.decodeQuad i p).2.2.1 ∈ Ino.sfTable
        ∧ (Ino.decodeQuad i p).2.2.2 ∈ Ino.powerTable)
    ∧ (∀ (p : RadioParams) (i j : Nat), i < Ino.totalCombinations →
        j < Ino.totalCombinations →
        Ino.decodeQuad i p = Ino.decodeQuad j p → i = j) := by
  refine ⟨fun p i hi => ?_, fun p i j hi hj h => P001.decodeQuad_inj p hi hj h,
          fun p i hi => ?_, fun p i j hi hj h => Ino.decodeQuad_inj_ino p hi hj h⟩
  · refine ⟨?_, ?_, ?_, ?_, ?_⟩
    · rw [P001.decodeQuad_digits, Nat.mod_eq_of_lt hi]
    · rw [P001.decodeQuad_digits]
      exact P001.bw_getD_mem (Nat.mod_lt _ (by decide))
    · rw [P001.decodeQuad_digits]
      exact P001.cr_getD_mem (Nat.mod_lt _ (by decide))
    · rw [P001.decodeQuad_digits]
      exact P001.sf_getD_mem (Nat.mod_lt _ (by decide))
    · rw [P001.decodeQuad_digits]
      exact P001.power_getD_mem (Nat.mod_lt _ (by decide))
  · refine ⟨?_, ?_, ?_, ?_, ?_⟩
    · rw [Ino.decodeQuad_digits_ino, Nat.mod_eq_of_lt hi]
    · rw [Ino.decodeQuad_digits_ino]
      exact Ino.bw_getD_mem_ino (Nat.mod_lt _ (by decide))
    · rw [Ino.decodeQuad_digits_ino]
      exact Ino.cr_getD_mem_ino (Nat.mod_lt _ (by decide))
    · rw [Ino.decodeQuad_digits_ino]
      exact Ino.sf_getD_mem_ino (Nat.mod_lt _ (by decide))
    · rw [Ino.decodeQuad_digits_ino]
      exact Ino.power_getD_mem_ino (Nat.mod_lt _ (by decide))

/-- Witness for C3 at the concrete indices 5 and 7. -/
theorem decode_draws_from_tables_and_injective_witness :
    ((P001.decodeQuad 5 P001.initialParameters).1 ∈ P001.bwTable
    ∧ (P001.decodeQuad 5 P001.initialParameters).2.2.2 ∈ P001.powerTable)
    ∧ (5 : Nat) = 5
    ∧ (Ino.decodeQuad 7 Ino.initialParameters).1 ∈ Ino.bwTable
    ∧ (7 : Nat) = 7 :=
  ⟨⟨(decode_draws_from_tables_and_injective.1 P001.initialParameters 5
        (by decide)).2.1,
    (decode_draws_from_tables_and_injective.1 P001.initialParameters 5
        (by decide)).2.2.2.2⟩,
   decode_draws_from_tables_and_injective.2.1 P001.initialParameters 5 5
     (by decide) (by decide) rfl,
   (decode_draws_from_tables_and_injective.2.2.1 Ino.initialParameters 7
       (by decide)).2.1,
   decode_draws_from_tables_and_injective.2.2.2 Ino.initialParameters 7 7
     (by decide) (by decide) rfl⟩

/-- C10 fails on the code: with a caller-declared capacity of 1 byte
(the buffer `syncLoop` passes) and a received packet whose reported
length is 10, `radioRecv`'s guard raises `*length` to 10 before calling
`readData`, so the driver is told to write 10 > 1 bytes into the
destination buffer — the comparison computes a maximum where the
"Evitar buffer overflow" comment requires a minimum. -/
theorem radioRecv_readData_exceeds_capacity :
    Radio.radioRecvReadLength 1 10 = 10 ∧ 1 < 10 := by decide

/-- C1: `timerResync` does not change the currently armed timeout (the
period, next alarm, and installed handler are untouched while the
scheduler runs); the staged period and handler take effect atomically
in the timer callback at the next tick, before the user handler is
notified (the notified handler is already the staged one), and the
staging cells are cleared by that application — so the slot during
which the resync was staged is still governed by the old period, while
the tick after the application fires the new period after the tick at
which it was applied, as does the tick after that (the staging is
consumed exactly once). -/
theorem timerResync_staged_atomic {F : Type} (micro : Nat) (fn : F)
    (s : Timer.State F) (hmicro : 0 < micro) :
    ((Timer.timerResync micro fn s).period = s.period
     ∧ (Timer.timerResync micro fn s).nextAlarm = s.nextAlarm
     ∧ (Timer.timerResync micro fn s).userFn = s.userFn)
    ∧ ((Timer.timerCallback (Timer.timerResync micro fn s)).1.period = micro
       ∧ (Timer.timerCallback (Timer.timerResync micro fn s)).1.userFn = fn
       ∧ (Timer.timerCallback (Timer.timerResync micro fn s)).2 = fn
       ∧ (Timer.timerCallback (Timer.timerResync micro fn s)).1.nextPeriod = 0
       ∧ (Timer.timerCallback (Timer.timerResync micro fn s)).1.nextUserFn = none
       ∧ (Timer.timerCallback (Timer.timerResync micro fn s)).1.nextAlarm
           = s.nextAlarm + micro)
    ∧ ((Timer.timerCallback
          (Timer.timerCallback (Timer.timerResync micro fn s)).1).1.period = micro
       ∧ (Timer.timerCallback
            (Timer.timerCallback (Timer.timerResync micro fn s)).1).1.nextAlarm
           = s.nextAlarm + micro + micro
       ∧ (Timer.timerCallback
            (Timer.timerCallback (Timer.timerResync micro fn s)).1).2 = fn) := by
  have hcb : Timer.timerCallback (Timer.timerResync micro fn s)
      = ({ running := s.running, period := micro,
           nextAlarm := s.nextAlarm + micro, userFn := fn,
           nextPeriod := 0, nextUserFn := none }, fn) := by
    simp [Timer.timerCallback, Timer.timerResync, hmicro]
  have hcb2 : Timer.timerCallback
      ({ running := s.running, period := micro,
         nextAlarm := s.nextAlarm + micro, userFn := fn,
         nextPeriod := 0, nextUserFn := none } : Timer.State F)
      = ({ running := s.running, period := micro,
           nextAlarm := s.nextAlarm + micro + micro, userFn := fn,
           nextPeriod := 0, nextUserFn := none }, fn) := by
    simp [Timer.timerCallback]
  refine ⟨⟨rfl, rfl, rfl⟩, ?_, ?_⟩
  · simp [hcb]
  · simp [hcb, hcb2]

/-- Witness for C1 at a concrete timer state. -/
theorem timerResync_staged_atomic_witness :
    (Timer.timerCallback (Timer.timerResync 2000 (7 : Nat)
        sampleTimerState)).1.period = 2000
    ∧ (Timer.timerCallback (Timer.timerResync 2000 (7 : Nat)
        sampleTimerState)).1.nextAlarm = sampleTimerState.nextAlarm + 2000 :=
  ⟨(timerResync_staged_atomic 2000 7 sampleTimerState (by decide)).2.1.1,
   (timerResync_staged_atomic 2000 7 sampleTimerState
      (by decide)).2.1.2.2.2.2.2⟩

namespace P001

theorem timedLoop_latch_or (toa : RadioParams → Nat → Nat) (s : SysState)
    (e : SlotEnv) :
    ((timedLoop toa s e).1).timerLatch
      = (s.timerLatch
         || decide ((s.timer.period : Int) < e.tEnd - e.opBegin)) := by
  simp [timedLoop]

theorem sdLoop_latch_or (toa : RadioParams → Nat → Nat) (s : SysState)
    (e : SlotEnv) :
    ((sdLoop toa s e).1).timerLatch
      = (s.timerLatch
         || decide ((s.timer.period : Int) < e.tEnd - e.opBegin)) := by
  simp [sdLoop]

theorem tick_latch_mono (toa : RadioParams → Nat → Nat) (s : SysState)
    (e : SlotEnv) (h : s.timerLatch = true) :
    ((tick toa s e).1).timerLatch = true := by
  unfold tick
  cases hc : (Timer.timerCallback s.timer).2 <;>
    simp [hc, timedLoop_latch_or, sdLoop_latch_or, h]

theorem run_latch_mono (toa : RadioParams → Nat → Nat) (es : List SlotEnv) :
    ∀ s : SysState, s.timerLatch = true → (run toa s es).timerLatch = true := by
  induction es with
  | nil => intro s h; exact h
  | cons e es ih => intro s h; exact ih _ (tick_latch_mono toa s e h)

end P001

/-- C2: the desync latch.  If the elapsed time from slot start to
handler completion exceeds the period that was in effect for the slot
(the timer period read at slot start), `timedLoop` sets `_timerLatch`;
both handlers only ever OR into the latch, `syncLoop` never touches it,
and a true latch stays true across any further run of the scheduler —
no operation resets it to false. -/
theorem desync_latch_sets_and_sticks :
    (∀ (toa : RadioParams → Nat → Nat) (s : P001.SysState) (e : P001.SlotEnv),
        (s.timer.period : Int) < e.tEnd - e.opBegin →
        ((P001.timedLoop toa s e).1).timerLatch = true)
    ∧ (∀ (toa : RadioParams → Nat → Nat) (s : P001.SysState)
        (e : P001.SlotEnv), s.timerLatch = true →
        ((P001.timedLoop toa s e).1).timerLatch = true)
    ∧ (∀ (toa : RadioParams → Nat → Nat) (s : P001.SysState)
        (e : P001.SlotEnv), s.timerLatch = true →
        ((P001.sdLoop toa s e).1).timerLatch = true)
    ∧ (∀ (toa : RadioParams → Nat → Nat) (s : P001.SysState)
        (e : P001.SyncEnv),
        ((P001.syncLoop toa s e).1).timerLatch = s.timerLatch)
    ∧ (∀ (toa : RadioParams → Nat → Nat) (s : P001.SysState)
        (es : List P001.SlotEnv),
        s.timerLatch = true → (P001.run toa s es).timerLatch = true) := by
  refine ⟨?_, ?_, ?_, ?_, ?_⟩
  · intro toa s e h
    rw [P001.timedLoop_latch_or]
    simp [h]
  · intro toa s e h
    rw [P001.timedLoop_latch_or]
    simp [h]
  · intro toa s e h
    rw [P001.sdLoop_latch_or]
    simp [h]
  · intro toa s e
    by_cases h : P001.syncError s.role e = Radio.Error.kNone <;>
      simp [P001.syncLoop, h]
  · intro toa s es h
    exact P001.run_latch_mono toa es s h

/-- Witness for C2: an overrunning slot (elapsed 41 ms against an
unarmed 0-period timer) latches, and a latched state stays latched
through a further tick. -/
theorem desync_latch_sets_and_sticks_witness :
    ((P001.timedLoop P001.toaConst P001.initialState
        P001.sampleEnv).1).timerLatch = true
    ∧ (P001.run P001.toaConst
        { P001.initialState with timerLatch := true }
        [P001.sampleEnv]).timerLatch = true :=
  ⟨desync_latch_sets_and_sticks.1 P001.toaConst P001.initialState
     P001.sampleEnv (by decide),
   desync_latch_sets_and_sticks.2.2.2.2 P001.toaConst
     { P001.initialState with timerLatch := true } [P001.sampleEnv] rfl⟩

/-- C8: every per-slot outcome recorded while running is classified
into exactly one of the three buckets — `kNone` into ok, `kCrc` and
`kHeader` into corrupt, `kTimeout` and `kUnknown` into lost — bumping
exactly one counter (the counter sum grows by exactly one), and no
outcome changes the protocol state: `timedLoop` leaves `_protoState`
untouched for every outcome (state changes happen only in `sdLoop` at a
combination boundary or on user abort in the polling loop). -/
theorem outcome_classified_never_aborts :
    ∀ (toa : RadioParams → Nat → Nat) (s : P001.SysState) (e : P001.SlotEnv),
      (P001.timedLoop toa s e).1.protoState = s.protoState
      ∧ (P001.timedLoop toa s e).1.testsOk
          = s.testsOk
            + (if P001.slotError s.role e = Radio.Error.kNone then 1 else 0)
      ∧ (P001.timedLoop toa s e).1.testsCorrupt
          = s.testsCorrupt
            + (if P001.slotError s.role e = Radio.Error.kCrc
                 ∨ P001.slotError s.role e = Radio.Error.kHeader then 1 else 0)
      ∧ (P001.timedLoop toa s e).1.testsLost
          = s.testsLost
            + (if P001.slotError s.role e = Radio.Error.kTimeout
                 ∨ P001.slotError s.role e = Radio.Error.kUnknown then 1 else 0)
      ∧ (P001.timedLoop toa s e).1.testsOk
          + (P001.timedLoop toa s e).1.testsCorrupt
          + (P001.timedLoop toa s e).1.testsLost
          = s.testsOk + s.testsCorrupt + s.testsLost + 1 := by
  intro toa s e
  cases herr : P001.slotError s.role e <;>
    simp [P001.timedLoop, P001.classifyCounters, herr] <;> omega

/-- C6: a handshake attempt that ends with a non-success radio outcome
backs off exactly one second (`delay(1000)`) and leaves the protocol
state unchanged: same protocol state (so the polling loop retries the
whole handshake), same test index, timer not started, same message
counter and parameters; no error value escapes `syncLoop`. -/
theorem handshake_failure_retries_unchanged :
    ∀ (toa : RadioParams → Nat → Nat) (s : P001.SysState) (e : P001.SyncEnv),
      P001.syncError s.role e ≠ Radio.Error.kNone →
      (P001.syncLoop toa s e).1.protoState = s.protoState
      ∧ (P001.syncLoop toa s e).1.currentTest = s.currentTest
      ∧ (P001.syncLoop toa s e).1.timer = s.timer
      ∧ (P001.syncLoop toa s e).1.messageIndex = s.messageIndex
      ∧ (P001.syncLoop toa s e).1.parameters = s.parameters
      ∧ (P001.syncLoop toa s e).2.delayMs = 1000 := by
  intro toa s e h
  simp [P001.syncLoop, h]

/-- Witness for C6: a timed-out receive at the initial state. -/
theorem handshake_failure_retries_unchanged_witness :
    (P001.syncLoop P001.toaConst P001.initialState
        P001.failSyncEnv).2.delayMs = 1000
    ∧ (P001.syncLoop P001.toaConst P001.initialState
        P001.failSyncEnv).1.protoState = P001.initialState.protoState :=
  ⟨(handshake_failure_retries_unchanged P001.toaConst P001.initialState
      P001.failSyncEnv (by decide)).2.2.2.2.2,
   (handshake_failure_retries_unchanged P001.toaConst P001.initialState
      P001.failSyncEnv (by decide)).1⟩

/-- C7: on a successful handshake the receiver's test index is
overwritten with the received single-byte index, the sender's test
index is unchanged (it keeps its own), and both sides then decode the
parameter space from that index and push it to the radio, entering
`kRunning`. -/
theorem handshake_success_commits_index :
    ∀ (toa : RadioParams → Nat → Nat) (s : P001.SysState) (e : P001.SyncEnv),
      (s.role = P001.Role.kRx → e.recvError = Radio.Error.kNone →
        e.recvByte < P001.totalCombinations →
        (P001.syncLoop toa s e).1.currentTest = e.recvByte
        ∧ (P001.syncLoop toa s e).1.parameters
            = (P001.updateTestParameters e.recvByte s.parameters).params
        ∧ (P001.syncLoop toa s e).1.radioConfig
            = (P001.updateTestParameters e.recvByte s.parameters).params
        ∧ (P001.syncLoop toa s e).1.protoState = P001.ProtocolState.kRunning)
      ∧ (s.role = P001.Role.kTx → e.sendError = Radio.Error.kNone →
        s.currentTest < P001.totalCombinations →
        (P001.syncLoop toa s e).1.currentTest = s.currentTest
        ∧ (P001.syncLoop toa s e).1.parameters
            = (P001.updateTestParameters s.currentTest s.parameters).params
        ∧ (P001.syncLoop toa s e).1.radioConfig
            = (P001.updateTestParameters s.currentTest s.parameters).params
        ∧ (P001.syncLoop toa s e).1.protoState
            = P001.ProtocolState.kRunning) := by
  intro toa s e
  constructor
  · intro hrole herr hb
    have hb256 : e.recvByte % 256 = e.recvByte :=
      Nat.mod_eq_of_lt (lt_of_lt_of_le hb (by decide))
    have hmod : e.recvByte % P001.totalCombinations = e.recvByte :=
      Nat.mod_eq_of_lt hb
    simp [P001.syncLoop, P001.syncError, hrole, herr, hb256,
          P001.updateTestParameters, hmod]
  · intro hrole herr hct
    have h256 : s.currentTest % 256 = s.currentTest :=
      Nat.mod_eq_of_lt (lt_of_lt_of_le hct (by decide))
    have hmod : s.currentTest % P001.totalCombinations = s.currentTest :=
      Nat.mod_eq_of_lt hct
    simp [P001.syncLoop, P001.syncError, hrole, herr, h256,
          P001.updateTestParameters, hmod]

/-- Witness for C7: a successful receive of index 3 at the receiver,
and a successful send at a sender holding index 0. -/
theorem handshake_success_commits_index_witness :
    (P001.syncLoop P001.toaConst P001.initialState
        P001.sampleSyncEnv).1.currentTest = 3
    ∧ (P001.syncLoop P001.toaConst P001.senderState
        P001.sampleSyncEnv).1.currentTest = P001.senderState.currentTest :=
  ⟨((handshake_success_commits_index P001.toaConst P001.initialState
       P001.sampleSyncEnv).1 rfl rfl (by decide)).1,
   ((handshake_success_commits_index P001.toaConst P001.senderState
       P001.sampleSyncEnv).2 rfl rfl (by decide)).1⟩

/-- C5: when the per-combination message counter reaches
`MESSAGES_PER_TEST` (50), `timedLoop` stages the SD write slot (and
itself emits no persistence output); the `sdLoop` slot then performs
exactly one flush, emitting exactly 50 records whose message-index
fields are 0..49 in order, resets the counter to 0, advances the
parameter index, decodes and pushes the new parameters to the radio,
and stages a resync with the new combination's computed period
(time-on-air of the probe message plus the fixed budget) — and when
the advance wrapped, the state machine instead transitions to
`kFinished`, the log is closed and the timer is stopped. -/
theorem combination_boundary_flush :
    (∀ (toa : RadioParams → Nat → Nat) (s : P001.SysState) (e : P001.SlotEnv),
        s.messageIndex + 1 = P001.MESSAGES_PER_TEST →
        (P001.timedLoop toa s e).1.timer.nextPeriod = P001.SD_BUDGET
        ∧ (P001.timedLoop toa s e).1.timer.nextUserFn
            = some P001.HandlerFn.sdLoop
        ∧ (P001.timedLoop toa s e).2.flushes = 0
        ∧ (P001.timedLoop toa s e).2.records = [])
    ∧ (∀ (toa : RadioParams → Nat → Nat) (s : P001.SysState) (e : P001.SlotEnv),
        (P001.sdLoop toa s e).2.flushes = 1
        ∧ ((P001.sdLoop toa s e).2.records).length = P001.MESSAGES_PER_TEST
        ∧ ((P001.sdLoop toa s e).2.records).map P001.LogRecord.msgIndex
            = List.range P001.MESSAGES_PER_TEST
        ∧ (P001.sdLoop toa s e).1.messageIndex = 0
        ∧ (P001.sdLoop toa s e).1.currentTest
            = (P001.updateTestParameters (s.currentTest + 1)
                s.parameters).currentTest
        ∧ (P001.sdLoop toa s e).1.parameters
            = (P001.updateTestParameters (s.currentTest + 1) s.parameters).params
        ∧ (P001.sdLoop toa s e).1.radioConfig
            = (P001.updateTestParameters (s.currentTest + 1) s.parameters).params
        ∧ (P001.sdLoop toa s e).1.timer.nextPeriod
            = toa (P001.updateTestParameters (s.currentTest + 1)
                    s.parameters).params P001.messageLength + P001.BUDGET
        ∧ (P001.sdLoop toa s e).1.timer.nextUserFn
            = some P001.HandlerFn.timedLoop
        ∧ ((P001.updateTestParameters (s.currentTest + 1)
              s.parameters).wasInvalid = true →
            (P001.sdLoop toa s e).1.protoState = P001.ProtocolState.kFinished
            ∧ (P001.sdLoop toa s e).1.logClosed = true
            ∧ (P001.sdLoop toa s e).1.timer.running = false)
        ∧ ((P001.updateTestParameters (s.currentTest + 1)
              s.parameters).wasInvalid = false →
            (P001.sdLoop toa s e).1.protoState = P001.ProtocolState.kRunning
            ∧ (P001.sdLoop toa s e).1.logClosed = s.logClosed
            ∧ (P001.sdLoop toa s e).1.timer.running = s.timer.running)) := by
  constructor
  · intro toa s e hmi
    have h50 : s.messageIndex + 1 = 50 := hmi
    simp [P001.timedLoop, P001.MESSAGES_PER_TEST, P001.SD_BUDGET, h50,
          Timer.timerResync]
  · intro toa s e
    cases hw : (P001.updateTestParameters (s.currentTest + 1)
        s.parameters).wasInvalid <;>
      simp [P001.sdLoop, P001.mkRecord, hw, Timer.timerResync, Timer.timerStop,
            List.map_map, Function.comp_def]

/-- Witness for C5: a slot with 49 messages already recorded stages the
SD slot, and an `sdLoop` at the last combination index flushes once and
finishes the run. -/
theorem combination_boundary_flush_witness :
    (P001.timedLoop P001.toaConst P001.stateAt49
        P001.sampleEnv).1.timer.nextPeriod = P001.SD_BUDGET
    ∧ (P001.sdLoop P001.toaConst P001.stateAtLast
        P001.sampleEnv).2.flushes = 1
    ∧ (P001.sdLoop P001.toaConst P001.stateAtLast
        P001.sampleEnv).1.protoState = P001.ProtocolState.kFinished := by
  refine ⟨(combination_boundary_flush.1 P001.toaConst P001.stateAt49
            P001.sampleEnv (by decide)).1, ?_, ?_⟩
  · exact (combination_boundary_flush.2 P001.toaConst P001.stateAtLast
      P001.sampleEnv).1
  · have h := combination_boundary_flush.2 P001.toaConst P001.stateAtLast
      P001.sampleEnv
    obtain ⟨-, -, -, -, -, -, -, -, -, hfin, -⟩ := h
    exact (hfin rfl).1
